import Mathlib

/-!
Verification of the korli turn-orchestration engine against its
natural-language specification.

The definitions below are a shallow embedding of the Python sources:

* `app/features/chat/state.py`   — `preserve_existing`, `CorrectionRecord`, `ChatState`
* `app/features/chat/config.py`  — `MESSAGES_BEFORE_SUMMARY`, `MESSAGES_TO_KEEP`
* `app/features/chat/nodes.py`   — graph nodes (`generate_initial_question`,
  `call_model`, `should_summarize`, `summarize_conversation`, `correct_response`)
* `app/features/chat/graph.py`   — `initialize_state`, `route_after_init`,
  the compiled graph wiring (`create_chat_graph`)
* `app/routes/chat_route.py`     — `ChatInput`, `_build_state`,
  `_validate_init_requirements`, `chat_invoke`
* `app/services/audio/openai_audio.py`, `app/services/audio/supabase_upload.py`
  — the tenacity retry configuration around external audio/upload calls.

External LLM calls (`structured_llm.invoke`) are modelled as oracle
functions passed in as parameters; a call that can fail returns `Except`.
LangGraph channel semantics (reducers, `add_messages`, `RemoveMessage`,
LastValue replacement) are embedded explicitly where a node's update is
applied to the state.
-/

namespace Korli

/-- One chat message (langchain `BaseMessage`): stable id, author role,
primary content and the optional translation kept in `additional_kwargs`. -/
structure Msg where
  id : String
  role : String
  content : String
  translation : Option String := none
deriving Repr, DecidableEq

/-- Record `CorrectionRecord` from `app/features/chat/state.py`. -/
structure CorrectionRecord where
  corrected_message : String
  translation : String
  corrected : Bool
deriving Repr, DecidableEq

/-- Helper `ChatPromptHelper` is constructed in `initialize_state` from exactly the
three resolved initialization parameters (its prompt-string methods live in a
module outside the sources and are represented by the oracle inputs). -/
structure ChatPromptHelper where
  student_level : String
  foreign_language : String
  native_language : String
deriving Repr, DecidableEq

/-- State `ChatState` from `app/features/chat/state.py`.  The five
initialization-parameter channels carry the `preserve_existing` reducer;
`summary` and `corrections` are plain LastValue channels; `messages` carries
the `add_messages` reducer. -/
structure ChatState where
  messages : List Msg := []
  student_level : Option String := none
  foreign_language : Option String := none
  native_language : Option String := none
  tutor_gender : Option String := none
  student_gender : Option String := none
  summary : String := ""
  prompt_helper : Option ChatPromptHelper := none
  corrections : List (String × CorrectionRecord) := []
deriving Repr, DecidableEq

/-- Constant `MESSAGES_BEFORE_SUMMARY` from `app/features/chat/config.py`. -/
def MESSAGES_BEFORE_SUMMARY : Nat := 30

/-- Constant `MESSAGES_TO_KEEP` from `app/features/chat/config.py`. -/
def MESSAGES_TO_KEEP : Nat := 20

/-- Reducer `preserve_existing` from `app/features/chat/state.py`:
`return new if new is not None else existing`. -/
def preserve_existing (existing new : Option α) : Option α :=
  match new with
  | some v => some v
  | none => existing

/-- A per-request delta for the initialization-parameter channels, at the
granularity LangGraph sees: `none` means the key was omitted from the update
(the reducer is not invoked for that channel), `some none` means the key was
present carrying Python `None`, `some (some v)` means a real value. -/
structure InitParamsDelta where
  student_level : Option (Option String) := none
  foreign_language : Option (Option String) := none
  native_language : Option (Option String) := none
  tutor_gender : Option (Option String) := none
  student_gender : Option (Option String) := none
deriving Repr, DecidableEq

/-- LangGraph channel application for a `preserve_existing`-annotated channel:
an omitted key leaves the channel untouched; a present key is folded in
through the `preserve_existing` reducer. -/
def applyChannel (existing : Option String) : Option (Option String) → Option String
  | none => existing
  | some v => preserve_existing existing v

/-- Merge-on-write of one delta into a stored session state, restricted to the
five initialization-parameter channels of `ChatState` (the channels annotated
with `preserve_existing` in `app/features/chat/state.py`). -/
def mergeInitParams (s : ChatState) (d : InitParamsDelta) : ChatState :=
  { s with
    student_level := applyChannel s.student_level d.student_level
    foreign_language := applyChannel s.foreign_language d.foreign_language
    native_language := applyChannel s.native_language d.native_language
    tutor_gender := applyChannel s.tutor_gender d.tutor_gender
    student_gender := applyChannel s.student_gender d.student_gender }

/-- Structured output `LLMTurn` from `app/features/chat/models.py`. -/
structure LLMTurn where
  foreign_language_message : String
  native_language_message : String
deriving Repr, DecidableEq

/-- Structured output `LLMResponseCorrection` from `app/features/chat/models.py`. -/
structure LLMResponseCorrection where
  corrected_foreign_language : String
  native_language_message : String
  corrected : Bool
deriving Repr, DecidableEq

/-- Failure of a node, as seen by the orchestrator: a missing
`prompt_helper` (the Python nodes index `state["prompt_helper"]`),
an empty message list in `correct_response` (`state["messages"][-1]`),
or a failed external capability call (the exception's message). -/
inductive ChatErr
  | missingPromptHelper
  | emptyMessages
  | capability (msg : String)
deriving Repr, DecidableEq

/-- Update produced by `initialize_state` in `app/features/chat/graph.py`:
either the empty dict (already initialized) or the freshly built
`prompt_helper` plus the re-written `summary`.  (The node also emits a
`correction_buffer` key that names no declared `ChatState` channel and is
dropped.) -/
inductive InitUpdate
  | noop
  | init (ph : ChatPromptHelper) (summary : String)
deriving Repr, DecidableEq

/-- Node `initialize_state` from `app/features/chat/graph.py`: a no-op when
`prompt_helper` is already present, otherwise builds the helper from the
stored parameters, defaulting `student_level` to "B2", `foreign_language` to
"Spanish (Spain)" and `native_language` to "English (US)". -/
def initialize_state (st : ChatState) : InitUpdate :=
  match st.prompt_helper with
  | some _ => .noop
  | none =>
      .init
        { student_level := st.student_level.getD "B2"
          foreign_language := st.foreign_language.getD "Spanish (Spain)"
          native_language := st.native_language.getD "English (US)" }
        st.summary

/-- Channel application of the `initialize_state` update: `prompt_helper`
goes through its `preserve_existing` reducer, `summary` is a LastValue
channel and is replaced. -/
def applyInit (st : ChatState) : InitUpdate → ChatState
  | .noop => st
  | .init ph s =>
      { st with
        prompt_helper := preserve_existing st.prompt_helper (some ph)
        summary := s }

/-- Router `route_after_init` from `app/features/chat/graph.py`. -/
def route_after_init (st : ChatState) : String :=
  if st.messages.length > 0 then "continue_conversation"
  else "generate_initial_question"

/-- Result of `generate_initial_question`: the appended assistant message and
the number of `structured_llm.invoke` calls the node performed (the node body
contains exactly one such call). -/
structure OpeningResult where
  messages : List Msg
  llmCalls : Nat
deriving Repr, DecidableEq

/-- Node `generate_initial_question` from `app/features/chat/nodes.py`: reads
`state["prompt_helper"]`, performs one structured LLM call (`llm_response`,
modelled by the oracle `o` which receives the helper the prompts are built
from) and returns one assistant message whose content is the foreign-language
text with the translation in metadata.  `aiId` is the fresh message id that
`add_messages` assigns when merging a message that carries none. -/
def generate_initial_question (o : ChatPromptHelper → Except String LLMTurn)
    (aiId : String) (st : ChatState) : Except ChatErr OpeningResult :=
  match st.prompt_helper with
  | none => .error .missingPromptHelper
  | some ph =>
      match o ph with
      | .error e => .error (.capability e)
      | .ok r =>
          .ok { messages := [{ id := aiId, role := "assistant",
                               content := r.foreign_language_message,
                               translation := some r.native_language_message }],
                llmCalls := 1 }

/-- State update returned by `call_model`: the assistant message appended via
the `add_messages` reducer. -/
structure RespondUpdate where
  messages : List Msg
deriving Repr, DecidableEq

/-- State update returned by `correct_response`: the value written to the
`corrections` channel (a LastValue channel, so it replaces the stored map). -/
structure CorrectUpdate where
  corrections : List (String × CorrectionRecord)
deriving Repr, DecidableEq

/-- Node `call_model` from `app/features/chat/nodes.py`: reads
`state["prompt_helper"]` and `state.get("summary", "")`, performs one
structured LLM call (the oracle `o` receives the summary and the active
message window the prompts are built from) and returns one assistant message.
`aiId` is the fresh id `add_messages` assigns on merge. -/
def call_model (o : String → List Msg → Except String LLMTurn)
    (aiId : String) (st : ChatState) : Except ChatErr RespondUpdate :=
  match st.prompt_helper with
  | none => .error .missingPromptHelper
  | some _ =>
      match o st.summary st.messages with
      | .error e => .error (.capability e)
      | .ok r =>
          .ok { messages := [{ id := aiId, role := "assistant",
                               content := r.foreign_language_message,
                               translation := some r.native_language_message }] }

/-- Node `correct_response` from `app/features/chat/nodes.py`: takes the last
message of the active window (`state["messages"][-1]`), performs one
structured LLM call on it and returns a corrections map holding a single
record keyed by that message's id.  `corrected_message` is the corrected text
when `corrected` is true, else the empty string. -/
def correct_response (o : Msg → Except String LLMResponseCorrection)
    (st : ChatState) : Except ChatErr CorrectUpdate :=
  match st.prompt_helper with
  | none => .error .missingPromptHelper
  | some _ =>
      match st.messages.getLast? with
      | none => .error .emptyMessages
      | some message =>
          match o message with
          | .error e => .error (.capability e)
          | .ok r =>
              .ok { corrections :=
                      [(message.id,
                        { corrected_message :=
                            if r.corrected then r.corrected_foreign_language else ""
                          translation := r.native_language_message
                          corrected := r.corrected })] }

/-- Fan-in application of the Respond result: `messages` is an `add_messages`
channel, so the update is appended. -/
def applyRespond (st : ChatState) (u : RespondUpdate) : ChatState :=
  { st with messages := st.messages ++ u.messages }

/-- Fan-in application of the Correct result: `corrections` is a LastValue
channel, so the update replaces the stored value. -/
def applyCorrect (st : ChatState) (u : CorrectUpdate) : ChatState :=
  { st with corrections := u.corrections }

/-- Predicate `should_summarize` from `app/features/chat/nodes.py`:
`len(state["messages"]) > MESSAGES_BEFORE_SUMMARY`. -/
def should_summarize (st : ChatState) : Bool :=
  st.messages.length > MESSAGES_BEFORE_SUMMARY

/-- Result of `summarize_conversation`: the state after the channel updates
are applied, together with the list of Summarize-capability invocations the
node performed, each recorded as the `(existing_summary, messages_to_summarize)`
pair handed to the capability (the length hint the prompts embed is the length
of that list). -/
structure SummarizeOutcome where
  state : ChatState
  calls : List (String × List Msg)
deriving Repr, DecidableEq

/-- Node `summarize_conversation` from `app/features/chat/nodes.py`: splits off
`messages_to_summarize = state["messages"][:-MESSAGES_TO_KEEP]`, calls the
Summarize capability (oracle `o`) with the existing summary and that slice
— unconditionally, with no emptiness check — stores the returned text as the
new summary and emits `RemoveMessage` deletions for every summarized id,
which `add_messages` applies by removing those ids from the window. -/
def summarize_conversation (o : String → List Msg → Except String String)
    (st : ChatState) : Except ChatErr SummarizeOutcome :=
  match st.prompt_helper with
  | none => .error .missingPromptHelper
  | some _ =>
      let messages_to_summarize :=
        st.messages.take (st.messages.length - MESSAGES_TO_KEEP)
      let existing_summary := st.summary
      match o existing_summary messages_to_summarize with
      | .error e => .error (.capability e)
      | .ok newSummary =>
          let deleteIds := messages_to_summarize.map Msg.id
          .ok { state :=
                  { st with
                    summary := newSummary
                    messages := st.messages.filter
                      (fun m => decide (m.id ∉ deleteIds)) },
                calls := [(existing_summary, messages_to_summarize)] }

/-- The conditional edge out of `fanin_after_processing` in
`create_chat_graph`: when `should_summarize` holds the graph runs
`summarize_conversation`, otherwise it goes straight to END with the state
untouched and the capability never invoked. -/
def maybeCompact (o : String → List Msg → Except String String)
    (st : ChatState) : Except ChatErr SummarizeOutcome :=
  if should_summarize st then summarize_conversation o st
  else .ok { state := st, calls := [] }

/-- The external capability oracles a request runs against: `respond` and
`opening` stand for the two `llm_response` structured calls, `correct` for
`llm_response_correction`, `summarize` for `llm_summary`.  Each receives the
state components the Python prompts are built from. -/
structure Oracles where
  respond : String → List Msg → Except String LLMTurn
  opening : ChatPromptHelper → Except String LLMTurn
  correct : Msg → Except String LLMResponseCorrection
  summarize : String → List Msg → Except String String

/-- The state update handed to `graph.ainvoke` for one request, as built by
`_build_state` in `app/routes/chat_route.py`: at most one user message, and
each initialization field included only when provided (`none` = key omitted). -/
structure GraphInput where
  messages : List Msg := []
  student_level : Option String := none
  foreign_language : Option String := none
  native_language : Option String := none
  tutor_gender : Option String := none
  student_gender : Option String := none
deriving Repr, DecidableEq

/-- Merging the request input into the thread's checkpointed state:
`messages` goes through `add_messages` (append), the initialization channels
go through their `preserve_existing` reducer (an omitted field, `none` here,
leaves the stored value untouched). -/
def applyInput (cp : ChatState) (inp : GraphInput) : ChatState :=
  { cp with
    messages := cp.messages ++ inp.messages
    student_level := preserve_existing cp.student_level inp.student_level
    foreign_language := preserve_existing cp.foreign_language inp.foreign_language
    native_language := preserve_existing cp.native_language inp.native_language
    tutor_gender := preserve_existing cp.tutor_gender inp.tutor_gender
    student_gender := preserve_existing cp.student_gender inp.student_gender }

/-- The state every node after `initialize_state` observes: the checkpoint
with the request input merged in and the `initialize_state` update applied. -/
def initState (inp : GraphInput) (cp : ChatState) : ChatState :=
  applyInit (applyInput cp inp) (initialize_state (applyInput cp inp))

/-- One run of the compiled graph of `create_chat_graph`
(`app/features/chat/graph.py`) on a loaded checkpoint plus a request input.
Follows the wiring exactly: START → `initialize_state` → conditional
`route_after_init`; the empty-conversation branch runs
`generate_initial_question` and ends; the ongoing branch fans out to
`call_model` and `correct_response`, converges at `fanin_after_processing`
(where both updates are applied to the shared snapshot) and then follows the
`should_summarize` conditional edge.  Returns the final state plus the list
of executed nodes; any node failure fails the whole run. -/
def runGraph (o : Oracles) (aiId : String) (inp : GraphInput) (cp : ChatState) :
    Except ChatErr (ChatState × List String) :=
  let st1 := initState inp cp
  if route_after_init st1 = "continue_conversation" then
    match call_model o.respond aiId st1, correct_response o.correct st1 with
    | .ok ru, .ok cu =>
        let st2 := applyCorrect (applyRespond st1 ru) cu
        if should_summarize st2 then
          match summarize_conversation o.summarize st2 with
          | .ok out =>
              .ok (out.state,
                ["initialize_state", "fanout_after_init", "call_model",
                 "correct_response", "fanin_after_processing",
                 "summarize_conversation"])
          | .error e => .error e
        else
          .ok (st2,
            ["initialize_state", "fanout_after_init", "call_model",
             "correct_response", "fanin_after_processing"])
    | .error e, _ => .error e
    | _, .error e => .error e
  else
    match generate_initial_question o.opening aiId st1 with
    | .ok r =>
        .ok (applyRespond st1 { messages := r.messages },
          ["initialize_state", "generate_initial_question"])
    | .error e => .error e

/-- Modelled from the spec: the durable checkpoint commit around one graph
run.  The code under `src/` only wires the compiled graph to an
`AsyncPostgresSaver` (`app/services/graph_runtime.py`) and re-raises any graph
failure as an HTTP 500 (`app/routes/chat_route.py`); the commit discipline
itself lives in the LangGraph runtime, which the spec describes as: the
updated snapshot is persisted only when the whole run succeeds, and a failed
run leaves the previously persisted snapshot untouched. -/
def runPersisted (o : Oracles) (aiId : String) (inp : GraphInput)
    (cp : ChatState) : ChatState :=
  match runGraph o aiId inp cp with
  | .ok r => r.1
  | .error _ => cp

/-- Payload `ChatInput` from `app/routes/chat_route.py` (the transport payload). -/
structure ChatInput where
  thread_id : Option String := none
  message : Option String := none
  student_level : Option String := none
  foreign_language : Option String := none
  native_language : Option String := none
  tutor_gender : Option String := none
  student_gender : Option String := none
deriving Repr, DecidableEq

/-- Function `_build_state` from `app/routes/chat_route.py`: omits `messages` when the
body carries no message, includes each initialization field only if provided.
`userMsgId` is the fresh id `add_messages` assigns to the incoming user
message. -/
def build_state (userMsgId : String) (body : ChatInput) : GraphInput :=
  { messages :=
      match body.message with
      | none => []
      | some m => [{ id := userMsgId, role := "user", content := m }]
    student_level := body.student_level
    foreign_language := body.foreign_language
    native_language := body.native_language
    tutor_gender := body.tutor_gender
    student_gender := body.student_gender }

/-- Function `_validate_init_requirements` from `app/routes/chat_route.py`: only when
the body carries no message, collect the required fields whose value is falsy
(absent or empty) and reject with HTTP 422 when any is missing. -/
def validate_init_requirements (body : ChatInput) : Except (List String) Unit :=
  match body.message with
  | some _ => .ok ()
  | none =>
      let missing :=
        (if body.student_level.getD "" = "" then ["student_level"] else []) ++
        (if body.foreign_language.getD "" = "" then ["foreign_language"] else []) ++
        (if body.native_language.getD "" = "" then ["native_language"] else [])
      if missing = [] then .ok () else .error missing

/-- The two error shapes `chat_invoke` surfaces: the 422 rejection of
`_validate_init_requirements` (with the missing field names) and the 500 the
route raises when the graph run fails. -/
inductive RouteErr
  | http422 (missing : List String)
  | http500 (e : ChatErr)
deriving Repr, DecidableEq

/-- Endpoint `chat_invoke` from `app/routes/chat_route.py`, paired with the persisted
snapshot after the request: validation runs before the graph is invoked (so a
422 leaves the checkpoint untouched), and a failed graph run is surfaced as a
500 with the checkpoint also untouched (see `runPersisted`). -/
def chat_invoke (o : Oracles) (userMsgId aiId : String) (body : ChatInput)
    (cp : ChatState) : Except RouteErr (ChatState × List String) × ChatState :=
  match validate_init_requirements body with
  | .error missing => (.error (.http422 missing), cp)
  | .ok _ =>
      match runGraph o aiId (build_state userMsgId body) cp with
      | .ok r => (.ok r, r.1)
      | .error e => (.error (.http500 e), cp)

/-!  Retry policy model: the tenacity configuration shared by
`_tts_generate`, `_whisper` (`app/services/audio/openai_audio.py`) and
`upload_audio_to_supabase` (`app/services/audio/supabase_upload.py`). -/

/-- The failure classes an attempt of one of those calls can raise:
`clientError` stands for `aiohttp.ClientError`, `timeoutError` for
`asyncio.TimeoutError`, and `runtimeError` for the `RuntimeError` the call
bodies raise themselves (in particular on a non-2xx HTTP status). -/
inductive CallFailure
  | clientError
  | timeoutError
  | runtimeError (msg : String)
deriving Repr, DecidableEq

/-- Predicate of `retry_if_exception_type((aiohttp.ClientError, asyncio.TimeoutError))`:
exactly the client-error and timeout classes are retried. -/
def retry_if_exception_type : CallFailure → Bool
  | .clientError => true
  | .timeoutError => true
  | .runtimeError _ => false

/-- Constant `MAX_RETRIES` from the audio/upload services. -/
def MAX_RETRIES : Nat := 5

/-- The tenacity attempt loop: `call n` is the outcome of attempt `n`
(numbered from 1), `remaining` the number of further attempts
`stop_after_attempt` still allows.  Returns the final outcome and the number
of attempts performed; a failure outside the retried classes propagates
immediately (exhaustion after the last attempt also propagates the failure). -/
def retryLoop (call : Nat → Except CallFailure α) :
    Nat → Nat → Except CallFailure α × Nat
  | attempt, 0 =>
      (match call attempt with
       | .ok a => (.ok a, attempt)
       | .error e => (.error e, attempt))
  | attempt, r + 1 =>
      match call attempt with
      | .ok a => (.ok a, attempt)
      | .error e =>
          if retry_if_exception_type e then retryLoop call (attempt + 1) r
          else (.error e, attempt)

/-- The whole `@retry(stop=stop_after_attempt(MAX_RETRIES), ...)` wrapper:
first attempt is attempt 1, and at most `MAX_RETRIES` attempts run. -/
def tenacity_retry (call : Nat → Except CallFailure α) :
    Except CallFailure α × Nat :=
  retryLoop call 1 (MAX_RETRIES - 1)

/-- Backoff `wait_exponential(multiplier=1, min=1, max=6)`: the backoff before the
next attempt, as a function of the number of the attempt that just failed,
clamped between `mn` and `mx` seconds. -/
def wait_exponential (multiplier mn mx : Nat) (attempt_number : Nat) : Nat :=
  max mn (min (multiplier * 2 ^ attempt_number) mx)

/-- The status handling inside `_tts_generate`: a 200 returns the audio
bytes, any other status raises `RuntimeError(f"OpenAI TTS {status}: ...")`.
`status` and `audio` give each attempt's HTTP outcome. -/
def tts_generate_attempt (status : Nat → Nat) (audio : Nat → String)
    (n : Nat) : Except CallFailure String :=
  if status n = 200 then .ok (audio n)
  else .error (.runtimeError ("OpenAI TTS " ++ toString (status n)))

/-- The status handling inside `upload_audio_to_supabase`: any status outside
`200 <= status < 300` raises `RuntimeError`. -/
def upload_attempt (status : Nat → Nat) (url : String)
    (n : Nat) : Except CallFailure String :=
  if 200 ≤ status n ∧ status n < 300 then .ok url
  else .error (.runtimeError ("Supabase upload failed " ++ toString (status n)))

/-!  Concrete fixtures used by witnesses and counterexamples. -/

/-- The default helper `initialize_state` builds when no parameter was
supplied. -/
def phDefault : ChatPromptHelper :=
  { student_level := "B2", foreign_language := "Spanish (Spain)",
    native_language := "English (US)" }

/-- A fixed, always-succeeding oracle set. -/
def oracleFixed : Oracles :=
  { respond := fun _ _ =>
      .ok { foreign_language_message := "Hola", native_language_message := "Hello" }
    opening := fun _ =>
      .ok { foreign_language_message := "Buenos dias",
            native_language_message := "Good morning" }
    correct := fun _ =>
      .ok { corrected_foreign_language := "", native_language_message := "fine",
            corrected := false }
    summarize := fun _ _ => .ok "resumen" }

/-- Same oracles with a different opening answer. -/
def oracleAlt : Oracles :=
  { oracleFixed with
    opening := fun _ =>
      .ok { foreign_language_message := "Bonjour",
            native_language_message := "Hello" } }

/-- A small generator of pairwise-distinct concrete messages. -/
def msgN (i : Nat) : Msg :=
  { id := toString i, role := if i % 2 = 0 then "user" else "assistant",
    content := "m" ++ toString i }

/-- A checkpointed session holding 31 active turns (the C8 scenario). -/
def cp31 : ChatState :=
  { messages := (List.range 31).map msgN, prompt_helper := some phDefault }

/-- The request input carrying one new user message for the C8 scenario. -/
def inp32 : GraphInput :=
  { messages := [{ id := "u31", role := "user", content := "hola" }] }

/-- A session holding only 5 active turns and a non-empty rolling summary,
used to enter `summarize_conversation` with an empty `older` slice. -/
def st5 : ChatState :=
  { messages := (List.range 5).map msgN, summary := "prior",
    prompt_helper := some phDefault }

/-- The message window of a graph outcome (empty on failure); lets concrete
runs be compared without spelling out whole states. -/
def graphMessages (r : Except ChatErr (ChatState × List String)) : List Msg :=
  match r with
  | .ok p => p.1.messages
  | .error _ => []

/-!  Helper lemmas shared by the claim theorems. -/

/-- When the mapped ids of `l₁ ++ l₂` are pairwise distinct, filtering out the
elements whose id occurs among `l₁`'s ids leaves exactly `l₂`. -/
theorem filter_not_mem_take_ids (l₁ l₂ : List Msg)
    (h : ((l₁ ++ l₂).map Msg.id).Nodup) :
    (l₁ ++ l₂).filter (fun m => decide (m.id ∉ l₁.map Msg.id)) = l₂ := by
  rw [List.map_append, List.nodup_append] at h
  obtain ⟨-, -, hdisj⟩ := h
  rw [List.filter_append]
  have e1 : l₁.filter (fun m => decide (m.id ∉ l₁.map Msg.id)) = [] := by
    rw [List.filter_eq_nil_iff]
    intro m hm
    simp only [decide_eq_true_eq, not_not]
    exact List.mem_map_of_mem Msg.id hm
  have e2 : l₂.filter (fun m => decide (m.id ∉ l₁.map Msg.id)) = l₂ := by
    rw [List.filter_eq_self]
    intro m hm
    simp only [decide_eq_true_eq]
    exact fun hmem => hdisj hmem (List.mem_map_of_mem Msg.id hm)
  rw [e1, e2, List.nil_append]

/-- Closed form of `summarize_conversation` on a state with distinct message
ids: the kept window is exactly the last `MESSAGES_TO_KEEP` messages and the
capability is invoked once, with the previous summary and the older slice. -/
theorem summarize_conversation_eq (o : String → List Msg → Except String String)
    (st : ChatState) (ph : ChatPromptHelper) (s' : String)
    (hph : st.prompt_helper = some ph)
    (hnodup : (st.messages.map Msg.id).Nodup)
    (ho : o st.summary
        (st.messages.take (st.messages.length - MESSAGES_TO_KEEP)) = .ok s') :
    summarize_conversation o st =
      .ok { state :=
              { st with
                summary := s'
                messages :=
                  st.messages.drop (st.messages.length - MESSAGES_TO_KEEP) },
            calls := [(st.summary,
              st.messages.take (st.messages.length - MESSAGES_TO_KEEP))] } := by
  unfold summarize_conversation
  rw [hph]
  simp only [ho]
  have key := filter_not_mem_take_ids
    (st.messages.take (st.messages.length - MESSAGES_TO_KEEP))
    (st.messages.drop (st.messages.length - MESSAGES_TO_KEEP))
    (by rw [List.take_append_drop]; exact hnodup)
  rw [List.take_append_drop] at key
  rw [key]

/-- Running `initialize_state` and applying its update keeps the message
window, summary and corrections, and always leaves a `prompt_helper` in
place. -/
theorem applyInit_initialize_state (st : ChatState) :
    (applyInit st (initialize_state st)).messages = st.messages ∧
    (applyInit st (initialize_state st)).summary = st.summary ∧
    (applyInit st (initialize_state st)).corrections = st.corrections ∧
    ∃ ph, (applyInit st (initialize_state st)).prompt_helper = some ph := by
  rcases h : st.prompt_helper with _ | ph <;>
    simp [initialize_state, applyInit, preserve_existing, h]

/-- A call whose every attempt fails with a retried failure class exhausts
the whole attempt budget. -/
theorem retryLoop_exhausts (call : Nat → Except CallFailure α)
    (h : ∀ n, ∃ e, call n = .error e ∧ retry_if_exception_type e = true) :
    ∀ r a, (retryLoop call a r).2 = a + r ∧
      ∃ e, (retryLoop call a r).1 = .error e := by
  intro r
  induction r with
  | zero =>
      intro a
      obtain ⟨e, he, -⟩ := h a
      simp [retryLoop, he]
  | succ r ih =>
      intro a
      obtain ⟨e, he, hr⟩ := h a
      have := ih (a + 1)
      simp only [retryLoop, he, hr, if_true]
      constructor
      · rw [this.1]; omega
      · exact this.2

/-- Lemma: `initState` keeps the message window, summary and corrections of the
merged input state and always installs a `prompt_helper`. -/
theorem initState_facts (inp : GraphInput) (cp : ChatState) :
    (initState inp cp).messages = cp.messages ++ inp.messages ∧
    (initState inp cp).summary = cp.summary ∧
    (initState inp cp).corrections = cp.corrections ∧
    ∃ ph, (initState inp cp).prompt_helper = some ph := by
  have h := applyInit_initialize_state (applyInput cp inp)
  exact h

/-- Closed form of `runGraph` along the ongoing-conversation path that ends
in a compaction. -/
theorem runGraph_continue_summarize (o : Oracles) (aiId : String)
    (inp : GraphInput) (cp : ChatState) (ru : RespondUpdate)
    (cu : CorrectUpdate) (out : SummarizeOutcome)
    (hroute : route_after_init (initState inp cp) = "continue_conversation")
    (hcall : call_model o.respond aiId (initState inp cp) = .ok ru)
    (hcor : correct_response o.correct (initState inp cp) = .ok cu)
    (hss : should_summarize
        (applyCorrect (applyRespond (initState inp cp) ru) cu) = true)
    (hsum : summarize_conversation o.summarize
        (applyCorrect (applyRespond (initState inp cp) ru) cu) = .ok out) :
    runGraph o aiId inp cp =
      .ok (out.state,
        ["initialize_state", "fanout_after_init", "call_model",
         "correct_response", "fanin_after_processing",
         "summarize_conversation"]) := by
  simp only [runGraph]
  rw [if_pos hroute]
  simp only [hcall, hcor]
  rw [if_pos hss]
  simp only [hsum]

/-- Closed form of `runGraph` along the empty-conversation opening path. -/
theorem runGraph_opening (o : Oracles) (aiId : String)
    (inp : GraphInput) (cp : ChatState) (r : OpeningResult)
    (hroute : route_after_init (initState inp cp) ≠ "continue_conversation")
    (hgen : generate_initial_question o.opening aiId (initState inp cp) = .ok r) :
    runGraph o aiId inp cp =
      .ok (applyRespond (initState inp cp) { messages := r.messages },
        ["initialize_state", "generate_initial_question"]) := by
  simp only [runGraph]
  rw [if_neg hroute]
  simp only [hgen]

/-!  Claim theorems. -/

/-- Claim C1: merge non-erasure of initialization parameters.  For every
session state `S` and incoming delta `D`, if `D` omits (or carries null for)
one of the initialization-parameter fields, then the merged state's value for
that field equals `S`'s value for that field: a previously persisted value is
never overwritten by an absent one. -/
theorem merge_non_erasure_init_params (s : ChatState) (d : InitParamsDelta) :
    (d.student_level = none ∨ d.student_level = some none →
      (mergeInitParams s d).student_level = s.student_level) ∧
    (d.foreign_language = none ∨ d.foreign_language = some none →
      (mergeInitParams s d).foreign_language = s.foreign_language) ∧
    (d.native_language = none ∨ d.native_language = some none →
      (mergeInitParams s d).native_language = s.native_language) ∧
    (d.tutor_gender = none ∨ d.tutor_gender = some none →
      (mergeInitParams s d).tutor_gender = s.tutor_gender) ∧
    (d.student_gender = none ∨ d.student_gender = some none →
      (mergeInitParams s d).student_gender = s.student_gender) := by
  refine ⟨?_, ?_, ?_, ?_, ?_⟩ <;>
    rintro (h | h) <;>
    simp [mergeInitParams, applyChannel, preserve_existing, h]

/-- A fully populated session state, for the C1 witness. -/
def sFull : ChatState :=
  { student_level := some "B1", foreign_language := some "French",
    native_language := some "English (US)", tutor_gender := some "female",
    student_gender := some "male" }

/-- A delta omitting three parameters and carrying null for two, for the C1
witness. -/
def dSparse : InitParamsDelta :=
  { student_level := some none, tutor_gender := some none }

/-- Witness for claim C1: merging `dSparse` into `sFull` keeps every stored
parameter. -/
theorem merge_non_erasure_init_params_witness :
    (mergeInitParams sFull dSparse).student_level = some "B1" ∧
    (mergeInitParams sFull dSparse).foreign_language = some "French" ∧
    (mergeInitParams sFull dSparse).tutor_gender = some "female" := by
  have h := merge_non_erasure_init_params sFull dSparse
  exact ⟨h.1 (Or.inr rfl), h.2.1 (Or.inl rfl), h.2.2.2.1 (Or.inr rfl)⟩

/-- Claim C4: commutativity of the fan-out results.  For every session state,
applying the Respond update returned by `call_model` and the Correct update
returned by `correct_response` in either order at the fan-in barrier yields
the same final session state. -/
theorem fanout_results_commute (st : ChatState)
    (ro : String → List Msg → Except String LLMTurn)
    (co : Msg → Except String LLMResponseCorrection)
    (aiId : String) (ru : RespondUpdate) (cu : CorrectUpdate)
    (_h1 : call_model ro aiId st = .ok ru)
    (_h2 : correct_response co st = .ok cu) :
    applyCorrect (applyRespond st ru) cu = applyRespond (applyCorrect st cu) ru := by
  simp [applyRespond, applyCorrect]

/-- A one-user-message initialized session, for witnesses. -/
def st1Msg : ChatState :=
  { messages := [{ id := "u1", role := "user", content := "hola" }],
    prompt_helper := some phDefault }

/-- Witness for claim C4: both application orders agree on `st1Msg` with the
concrete `oracleFixed` node results. -/
theorem fanout_results_commute_witness :
    applyCorrect
        (applyRespond st1Msg
          { messages := [{ id := "a1", role := "assistant", content := "Hola",
                           translation := some "Hello" }] })
        { corrections := [("u1", { corrected_message := "", translation := "fine",
                                   corrected := false })] } =
      applyRespond
        (applyCorrect st1Msg
          { corrections := [("u1", { corrected_message := "",
                                     translation := "fine",
                                     corrected := false })] })
        { messages := [{ id := "a1", role := "assistant", content := "Hola",
                         translation := some "Hello" }] } := by
  exact fanout_results_commute st1Msg oracleFixed.respond oracleFixed.correct "a1"
    { messages := [{ id := "a1", role := "assistant", content := "Hola",
                     translation := some "Hello" }] }
    { corrections := [("u1", { corrected_message := "", translation := "fine",
                               corrected := false })] }
    rfl rfl

/-- Claim C2: compaction conservation.  Whenever the post-fan-in message
count strictly exceeds `MESSAGES_BEFORE_SUMMARY`, the summarize step runs:
afterwards exactly `MESSAGES_TO_KEEP` messages remain active and the stored
summary is the (non-empty) text the Summarize capability returned.  Whenever
the count is at most the threshold, the summarize step never runs — no
capability call is made and the state, summary included, is unchanged. -/
theorem compaction_conservation :
    (∀ (o : String → List Msg → Except String String) (st : ChatState)
        (ph : ChatPromptHelper) (s' : String),
      st.prompt_helper = some ph →
      (st.messages.map Msg.id).Nodup →
      MESSAGES_BEFORE_SUMMARY < st.messages.length →
      o st.summary
          (st.messages.take (st.messages.length - MESSAGES_TO_KEEP)) = .ok s' →
      s' ≠ "" →
      ∃ out, maybeCompact o st = .ok out ∧
        out.state.messages.length = MESSAGES_TO_KEEP ∧
        out.state.summary = s' ∧ out.state.summary ≠ "" ∧ out.calls ≠ []) ∧
    (∀ (o : String → List Msg → Except String String) (st : ChatState),
      st.messages.length ≤ MESSAGES_BEFORE_SUMMARY →
      maybeCompact o st = .ok { state := st, calls := [] }) := by
  constructor
  · intro o st ph s' hph hnodup hlen ho hne
    have hrun : should_summarize st = true := by
      simp [should_summarize]; exact hlen
    have hmc : maybeCompact o st = summarize_conversation o st := by
      unfold maybeCompact
      rw [hrun]
      simp
    have heq := summarize_conversation_eq o st ph s' hph hnodup ho
    refine ⟨_, hmc.trans heq, ?_, rfl, hne, ?_⟩
    · simp only [MESSAGES_BEFORE_SUMMARY] at hlen
      simp only [List.length_drop, MESSAGES_TO_KEEP]
      omega
    · simp
  · intro o st hlen
    have hrun : should_summarize st = false := by
      simp [should_summarize]; exact hlen
    unfold maybeCompact
    rw [hrun]
    simp

/-- A 31-message session with a previous summary, for C2's witness. -/
def st31 : ChatState :=
  { messages := (List.range 31).map msgN, summary := "prev",
    prompt_helper := some phDefault }

/-- Witness for claim C2: on the concrete 31-message session the compaction
keeps 20 messages and stores the capability's text; on the 5-message session
the compaction branch is a perfect no-op. -/
theorem compaction_conservation_witness :
    (∃ out, maybeCompact (fun _ _ => .ok "resumen") st31 = .ok out ∧
      out.state.messages.length = MESSAGES_TO_KEEP ∧
      out.state.summary = "resumen" ∧ out.state.summary ≠ "" ∧ out.calls ≠ []) ∧
    maybeCompact (fun _ _ => .ok "resumen") st5 =
      .ok { state := st5, calls := [] } := by
  constructor
  · exact (compaction_conservation).1 (fun _ _ => .ok "resumen") st31 phDefault
      "resumen" rfl (by decide) (by decide) rfl (by decide)
  · exact (compaction_conservation).2 (fun _ _ => .ok "resumen") st5 (by decide)

/-- Claim C7 (code bug evidence): entering `summarize_conversation` on `st5`,
whose `older` slice is empty because `MESSAGES_TO_KEEP` is at least the
window length, still invokes the Summarize capability — with the empty slice
as input — and overwrites the stored summary with whatever the capability
returns.  The spec requires this case to skip the call and leave the summary
unchanged. -/
theorem summarize_empty_older_still_calls :
    summarize_conversation (fun _ _ => .ok "NEW") st5 =
      .ok { state := { st5 with summary := "NEW" },
            calls := [("prior", [])] } ∧
    ("NEW" : String) ≠ "prior" := by
  constructor
  · rfl
  · decide

/-- Claim C3: no partial commit.  On an ongoing-conversation request (the
input carries a user message, so the fan-out runs), if the Correct sub-task
fails irrecoverably — or, vice versa, the Respond sub-task fails — the whole
request fails and the persisted session state after the request is identical
to the persisted state before it: no assistant turn produced by the
successful branch is committed. -/
theorem no_orphan_commit (o : Oracles) (aiId : String) (inp : GraphInput)
    (cp : ChatState) (hmsg : inp.messages ≠ [])
    (hfail : (∀ m, ∃ e, o.correct m = .error e) ∨
             (∀ s ms, ∃ e, o.respond s ms = .error e)) :
    (∃ e, runGraph o aiId inp cp = .error e) ∧
    runPersisted o aiId inp cp = cp ∧
    (runPersisted o aiId inp cp).messages = cp.messages := by
  obtain ⟨hm1, -, -, ph, hph⟩ := initState_facts inp cp
  have hne : (initState inp cp).messages ≠ [] := by
    rw [hm1]
    intro hcontra
    exact hmsg (List.append_eq_nil.mp hcontra).2
  have hroute : route_after_init (initState inp cp) = "continue_conversation" := by
    unfold route_after_init
    rw [if_pos (List.length_pos.mpr hne)]
  have herr : ∃ e, runGraph o aiId inp cp = .error e := by
    rcases hfail with hcor | hresp
    · cases hcall : call_model o.respond aiId (initState inp cp) with
      | error e =>
          refine ⟨e, ?_⟩
          simp only [runGraph]
          rw [if_pos hroute]
          simp only [hcall]
      | ok ru =>
          obtain ⟨m, hm⟩ := Option.isSome_iff_exists.mp
            (List.getLast?_isSome.mpr hne)
          obtain ⟨e, he⟩ := hcor m
          refine ⟨.capability e, ?_⟩
          have hcorr : correct_response o.correct (initState inp cp) =
              .error (.capability e) := by
            simp only [correct_response, hph, hm, he]
          simp only [runGraph]
          rw [if_pos hroute]
          simp only [hcall, hcorr]
    · obtain ⟨e, he⟩ := hresp (initState inp cp).summary (initState inp cp).messages
      refine ⟨.capability e, ?_⟩
      have hcall : call_model o.respond aiId (initState inp cp) =
          .error (.capability e) := by
        simp only [call_model, hph, he]
      simp only [runGraph]
      rw [if_pos hroute]
      simp only [hcall]
  obtain ⟨e, he⟩ := herr
  refine ⟨⟨e, he⟩, ?_, ?_⟩ <;> · unfold runPersisted; rw [he]

/-- Oracles whose Correct capability always fails while Respond succeeds. -/
def oracleCorrectFails : Oracles :=
  { oracleFixed with correct := fun _ => .error "correction call failed" }

/-- Witness for claim C3: on the concrete one-message session, with the
Correct capability failing and Respond succeeding, the request errors and the
persisted snapshot is exactly the pre-request snapshot. -/
theorem no_orphan_commit_witness :
    (∃ e, runGraph oracleCorrectFails "a1"
        { messages := [{ id := "u1", role := "user", content := "hola" }] }
        { prompt_helper := some phDefault } = .error e) ∧
    runPersisted oracleCorrectFails "a1"
        { messages := [{ id := "u1", role := "user", content := "hola" }] }
        { prompt_helper := some phDefault } =
      { prompt_helper := some phDefault } ∧
    (runPersisted oracleCorrectFails "a1"
        { messages := [{ id := "u1", role := "user", content := "hola" }] }
        { prompt_helper := some phDefault }).messages = [] := by
  exact no_orphan_commit oracleCorrectFails "a1"
    { messages := [{ id := "u1", role := "user", content := "hola" }] }
    { prompt_helper := some phDefault }
    (by decide)
    (Or.inl (fun m => ⟨"correction call failed", rfl⟩))

/-- The initialization parameters of the C6 scenario (fresh A1 French
learner, no user message). -/
def inpA1 : GraphInput :=
  { student_level := some "A1", foreign_language := some "French",
    native_language := some "English" }

/-- Claim C6 counterexample: the opening branch does call the LLM.  Running
the graph on a fresh session with two oracle sets that differ only in the
generation capability's answer produces different opening turns — so the
content comes from an LLM call, not from the language-metadata collaborator —
and `generate_initial_question` performs exactly one structured LLM
invocation, not zero. -/
theorem opening_requires_llm_call :
    graphMessages (runGraph oracleFixed "a1" inpA1 {}) ≠
      graphMessages (runGraph oracleAlt "a1" inpA1 {}) ∧
    (generate_initial_question oracleFixed.opening "a1"
        (initState inpA1 {})).map OpeningResult.llmCalls = .ok 1 ∧
    (1 : Nat) ≠ 0 := by
  refine ⟨by decide, rfl, by decide⟩

/-- Claim C6 (amended): for every request whose loaded session has an empty
turn sequence, the orchestrator takes the `generate_initial_question` branch,
which performs exactly one LLM call and no fan-out, appends exactly one
assistant turn (the session turn count becomes 1) and terminates the
request. -/
theorem opening_generation_path :
    (∀ (o : Oracles) (aiId : String) (inp : GraphInput) (cp : ChatState),
      cp.messages = [] → inp.messages = [] →
      (∀ ph, ∃ t, o.opening ph = .ok t) →
      ∃ st, runGraph o aiId inp cp =
          .ok (st, ["initialize_state", "generate_initial_question"]) ∧
        st.messages.length = 1) ∧
    (∀ (oo : ChatPromptHelper → Except String LLMTurn) (aid : String)
        (st' : ChatState) (r : OpeningResult),
      generate_initial_question oo aid st' = .ok r →
      r.llmCalls = 1 ∧ r.messages.length = 1) := by
  constructor
  · intro o aiId inp cp hcp hinp hok
    obtain ⟨hm1, -, -, ph, hph⟩ := initState_facts inp cp
    have hmsgs : (initState inp cp).messages = [] := by
      rw [hm1, hcp, hinp]
      rfl
    have hroute : route_after_init (initState inp cp) =
        "generate_initial_question" := by
      unfold route_after_init
      rw [hmsgs]
      rfl
    obtain ⟨t, ht⟩ := hok ph
    have hgen : generate_initial_question o.opening aiId (initState inp cp) =
        .ok { messages := [{ id := aiId, role := "assistant",
                             content := t.foreign_language_message,
                             translation := some t.native_language_message }],
              llmCalls := 1 } := by
      simp only [generate_initial_question, hph, ht]
    refine ⟨_, runGraph_opening o aiId inp cp _ (by rw [hroute]; decide) hgen, ?_⟩
    show ((initState inp cp).messages ++ _).length = 1
    rw [hmsgs]
    rfl
  · intro oo aid st' r h
    cases hph : st'.prompt_helper with
    | none =>
        simp only [generate_initial_question, hph] at h
        cases h
    | some ph =>
        cases ho : oo ph with
        | error e =>
            simp only [generate_initial_question, hph, ho] at h
            cases h
        | ok t =>
            simp only [generate_initial_question, hph, ho] at h
            cases h
            exact ⟨rfl, rfl⟩

/-- Witness for claim C6 (amended) at the concrete A1-French scenario. -/
theorem opening_generation_path_witness :
    (∃ st, runGraph oracleFixed "a1" inpA1 {} =
        .ok (st, ["initialize_state", "generate_initial_question"]) ∧
      st.messages.length = 1) ∧
    generate_initial_question oracleFixed.opening "a1" (initState inpA1 {}) =
      .ok { messages := [{ id := "a1", role := "assistant",
                           content := "Buenos dias",
                           translation := some "Good morning" }],
            llmCalls := 1 } := by
  constructor
  · exact (opening_generation_path).1 oracleFixed "a1" inpA1 {} rfl rfl
      (fun ph => ⟨_, rfl⟩)
  · rfl

/-- A first-contact request body that carries a user message but none of the
initialization parameters. -/
def bodyMsgOnly : ChatInput := { message := some "hola" }

/-- Claim C5 counterexample: a first-contact request (fresh session, no
initialization parameters resolved) that carries a user message but none of
the required fields is not rejected and does not fail — validation passes,
the graph run succeeds and commits, and the session is silently initialized
with the default parameters, mutating the persisted state. -/
theorem init_missing_params_not_failing :
    validate_init_requirements bodyMsgOnly = .ok () ∧
    (chat_invoke oracleFixed "u1" "a1" bodyMsgOnly {}).1 =
      .ok ((chat_invoke oracleFixed "u1" "a1" bodyMsgOnly {}).2,
        ["initialize_state", "fanout_after_init", "call_model",
         "correct_response", "fanin_after_processing"]) ∧
    (chat_invoke oracleFixed "u1" "a1" bodyMsgOnly {}).2.prompt_helper =
      some phDefault ∧
    (chat_invoke oracleFixed "u1" "a1" bodyMsgOnly {}).2.messages.length = 2 := by
  exact ⟨rfl, rfl, rfl, rfl⟩

/-- Claim C5 (amended): for every first-turn request that carries no user
message, if any of the three required fields (proficiency level, target
language, native language) is absent or empty, the route rejects the request
with HTTP 422 before invoking the graph — naming the missing fields — and the
persisted session state is not mutated.  First-contact requests that do carry
a user message are not validated. -/
theorem first_turn_validation (body : ChatInput) (o : Oracles)
    (uid aid : String) (cp : ChatState)
    (hmsg : body.message = none)
    (hmissing : body.student_level.getD "" = "" ∨
      body.foreign_language.getD "" = "" ∨
      body.native_language.getD "" = "") :
    ∃ missing, missing ≠ [] ∧
      chat_invoke o uid aid body cp = (.error (.http422 missing), cp) := by
  have hLne :
      ((if body.student_level.getD "" = "" then ["student_level"] else []) ++
       (if body.foreign_language.getD "" = "" then ["foreign_language"] else []) ++
       (if body.native_language.getD "" = "" then ["native_language"] else []))
        ≠ ([] : List String) := by
    intro hnil
    obtain ⟨h12, h3⟩ := List.append_eq_nil.mp hnil
    obtain ⟨h1, h2⟩ := List.append_eq_nil.mp h12
    have hc1 : ¬ body.student_level.getD "" = "" := by
      intro hc
      rw [if_pos hc] at h1
      exact List.cons_ne_nil _ _ h1
    have hc2 : ¬ body.foreign_language.getD "" = "" := by
      intro hc
      rw [if_pos hc] at h2
      exact List.cons_ne_nil _ _ h2
    have hc3 : ¬ body.native_language.getD "" = "" := by
      intro hc
      rw [if_pos hc] at h3
      exact List.cons_ne_nil _ _ h3
    rcases hmissing with h | h | h
    exacts [hc1 h, hc2 h, hc3 h]
  have hval : validate_init_requirements body =
      .error ((if body.student_level.getD "" = "" then ["student_level"] else []) ++
        (if body.foreign_language.getD "" = "" then ["foreign_language"] else []) ++
        (if body.native_language.getD "" = "" then ["native_language"] else [])) := by
    simp only [validate_init_requirements, hmsg]
    rw [if_neg hLne]
  refine ⟨_, hLne, ?_⟩
  simp only [chat_invoke, hval]

/-- A first-turn body carrying no message and only a proficiency level. -/
def bodyLevelOnly : ChatInput := { student_level := some "A2" }

/-- Witness for claim C5 (amended): the concrete first-turn body missing both
languages is rejected with a non-empty missing list and the checkpoint is
untouched. -/
theorem first_turn_validation_witness :
    ∃ missing, missing ≠ [] ∧
      chat_invoke oracleFixed "u1" "a1" bodyLevelOnly { summary := "keep" } =
        (.error (.http422 missing), { summary := "keep" }) := by
  exact first_turn_validation bodyLevelOnly oracleFixed "u1" "a1"
    { summary := "keep" } rfl (Or.inr (Or.inl rfl))

/-- Claim C10: silent default initialization.  `initialize_state`, on a state
with no `prompt_helper`, never fails: it builds the helper from the stored
parameters with each absent field replaced by its default ("B2",
"Spanish (Spain)", "English (US)") — and the HTTP route validates the three
required fields only when the request carries no user message, so a first
request that carries a user message and no initialization parameters silently
creates a default-configured session. -/
theorem silent_default_initialization :
    (∀ st : ChatState, st.prompt_helper = none →
      initialize_state st =
        .init { student_level := st.student_level.getD "B2",
                foreign_language := st.foreign_language.getD "Spanish (Spain)",
                native_language := st.native_language.getD "English (US)" }
          st.summary) ∧
    (∀ body : ChatInput, body.message.isSome →
      validate_init_requirements body = .ok ()) := by
  constructor
  · intro st h
    simp only [initialize_state, h]
  · intro body h
    obtain ⟨m, hm⟩ := Option.isSome_iff_exists.mp h
    simp only [validate_init_requirements, hm]

/-- Witness for claim C10: a state carrying only a level gets the two
language defaults, and the message-carrying body passes validation. -/
theorem silent_default_initialization_witness :
    initialize_state { student_level := some "A1" } =
      .init { student_level := "A1", foreign_language := "Spanish (Spain)",
              native_language := "English (US)" } "" ∧
    validate_init_requirements bodyMsgOnly = .ok () := by
  exact ⟨(silent_default_initialization).1 { student_level := some "A1" } rfl,
    (silent_default_initialization).2 bodyMsgOnly rfl⟩

/-- Claim C8 counterexample: on the concrete session holding 31 active turns,
a request that supplies a new user message ends with 20 active turns, not 22:
the threshold is evaluated after the new user and assistant turns are
appended (31 + 2 = 33 > 30), and compaction then trims the window to exactly
`MESSAGES_TO_KEEP`. -/
theorem post_compaction_count_cex :
    (graphMessages (runGraph oracleFixed "a31" inp32 cp31)).length = 20 ∧
    (graphMessages (runGraph oracleFixed "a31" inp32 cp31)).length ≠ 22 ∧
    (runPersisted oracleFixed "a31" inp32 cp31).summary = "resumen" := by
  refine ⟨by decide, by decide, by decide⟩

/-- Claim C8 (amended): for a session holding 31 active turns, a request
supplying a new user message runs the full ongoing path including the
summarize step, and afterwards the active turn count equals
`MESSAGES_TO_KEEP` = 20 (not 22: compaction runs after the new user and
assistant turns are appended and keeps exactly the last 20) and the summary
is the non-empty text returned by the Summarize capability. -/
theorem post_compaction_turn_count (o : Oracles) (cp : ChatState)
    (userMsg : Msg) (aiId : String)
    (h31 : cp.messages.length = 31)
    (hnodup : (cp.messages.map Msg.id ++ [userMsg.id, aiId]).Nodup)
    (hresp : ∀ s ms, ∃ t, o.respond s ms = .ok t)
    (hcorr : ∀ m, ∃ c, o.correct m = .ok c)
    (hsumm : ∀ s ms, ∃ t, o.summarize s ms = .ok t ∧ t ≠ "") :
    ∃ st, runGraph o aiId { messages := [userMsg] } cp =
        .ok (st, ["initialize_state", "fanout_after_init", "call_model",
                  "correct_response", "fanin_after_processing",
                  "summarize_conversation"]) ∧
      st.messages.length = MESSAGES_TO_KEEP ∧ st.summary ≠ "" := by
  obtain ⟨hm1, -, -, ph, hph⟩ :=
    initState_facts { messages := [userMsg] } cp
  have hm1' : (initState { messages := [userMsg] } cp).messages =
      cp.messages ++ [userMsg] := hm1
  have hlen1 : (initState { messages := [userMsg] } cp).messages.length = 32 := by
    rw [hm1']
    simp [h31]
  have hroute : route_after_init (initState { messages := [userMsg] } cp) =
      "continue_conversation" := by
    unfold route_after_init
    rw [if_pos (by rw [hlen1]; decide)]
  obtain ⟨t, ht⟩ := hresp (initState { messages := [userMsg] } cp).summary
    (initState { messages := [userMsg] } cp).messages
  have hcall : call_model o.respond aiId (initState { messages := [userMsg] } cp) =
      .ok { messages := [{ id := aiId, role := "assistant",
                           content := t.foreign_language_message,
                           translation := some t.native_language_message }] } := by
    simp only [call_model, hph, ht]
  have hlast : (initState { messages := [userMsg] } cp).messages.getLast? =
      some userMsg := by
    rw [hm1', List.getLast?_append]
    rfl
  obtain ⟨c, hc⟩ := hcorr userMsg
  have hcor : correct_response o.correct (initState { messages := [userMsg] } cp) =
      .ok { corrections :=
              [(userMsg.id,
                { corrected_message :=
                    if c.corrected then c.corrected_foreign_language else ""
                  translation := c.native_language_message
                  corrected := c.corrected })] } := by
    simp only [correct_response, hph, hlast, hc]
  set st2 := applyCorrect
    (applyRespond (initState { messages := [userMsg] } cp)
      { messages := [{ id := aiId, role := "assistant",
                       content := t.foreign_language_message,
                       translation := some t.native_language_message }] })
    { corrections :=
        [(userMsg.id,
          { corrected_message :=
              if c.corrected then c.corrected_foreign_language else ""
            translation := c.native_language_message
            corrected := c.corrected })] } with hst2
  have hm2 : st2.messages = cp.messages ++
      [userMsg, { id := aiId, role := "assistant",
                  content := t.foreign_language_message,
                  translation := some t.native_language_message }] := by
    show (initState { messages := [userMsg] } cp).messages ++ _ = _
    rw [hm1', List.append_assoc]
    rfl
  have hlen2 : st2.messages.length = 33 := by
    rw [hm2]
    simp [h31]
  have hnodup2 : (st2.messages.map Msg.id).Nodup := by
    rw [hm2, List.map_append]
    simpa using hnodup
  have hph2 : st2.prompt_helper = some ph := hph
  have hss : should_summarize st2 = true := by
    simp only [should_summarize, hlen2, MESSAGES_BEFORE_SUMMARY]
    decide
  obtain ⟨s', hs', hsne⟩ := hsumm st2.summary
    (st2.messages.take (st2.messages.length - MESSAGES_TO_KEEP))
  have hsum := summarize_conversation_eq o.summarize st2 ph s' hph2 hnodup2 hs'
  refine ⟨_, runGraph_continue_summarize o aiId { messages := [userMsg] } cp
      _ _ _ hroute hcall hcor hss hsum, ?_, hsne⟩
  show (st2.messages.drop (st2.messages.length - MESSAGES_TO_KEEP)).length = _
  rw [List.length_drop, hlen2]
  decide

/-- Witness for claim C8 (amended) on the concrete 31-turn session and the
always-succeeding oracles. -/
theorem post_compaction_turn_count_witness :
    ∃ st, runGraph oracleFixed "a31" inp32 cp31 =
        .ok (st, ["initialize_state", "fanout_after_init", "call_model",
                  "correct_response", "fanin_after_processing",
                  "summarize_conversation"]) ∧
      st.messages.length = MESSAGES_TO_KEEP ∧ st.summary ≠ "" := by
  have h := post_compaction_turn_count oracleFixed cp31
    { id := "u31", role := "user", content := "hola" } "a31"
    (by decide) (by decide)
    (fun s ms => ⟨_, rfl⟩) (fun m => ⟨_, rfl⟩)
    (fun s ms => ⟨"resumen", rfl, by decide⟩)
  exact h

/-- Claim C9 counterexample: a call whose every attempt comes back with HTTP
status 500 — a non-2xx transport outcome, which the claim classifies as
transient and retriable — raises `RuntimeError`, is NOT retried, and
propagates after exactly one attempt instead of five. -/
theorem non2xx_not_retried :
    tenacity_retry (tts_generate_attempt (fun _ => 500) (fun _ => "")) =
      (.error (.runtimeError "OpenAI TTS 500"), 1) ∧
    (1 : Nat) ≠ MAX_RETRIES := by
  exact ⟨rfl, by decide⟩

/-- Claim C9 (amended): the tenacity wrapper around the audio and upload
calls retries only `aiohttp.ClientError` and `asyncio.TimeoutError`, up to
`MAX_RETRIES` = 5 attempts, with exponential backoff clamped between 1 and 6
seconds; any other failure class — in particular the `RuntimeError` raised
for a non-2xx HTTP response, and malformed-result errors — is not retried and
propagates after a single attempt. -/
theorem retry_policy_tenacity :
    (∀ (α : Type) (call : Nat → Except CallFailure α),
      (∀ n, ∃ e, call n = .error e ∧ retry_if_exception_type e = true) →
      (tenacity_retry call).2 = MAX_RETRIES ∧
        ∃ e, (tenacity_retry call).1 = .error e) ∧
    (∀ (α : Type) (call : Nat → Except CallFailure α) (e : CallFailure),
      call 1 = .error e → retry_if_exception_type e = false →
      tenacity_retry call = (.error e, 1)) ∧
    (∀ s audio n, s ≠ 200 →
      tts_generate_attempt (fun _ => s) audio n =
        .error (.runtimeError ("OpenAI TTS " ++ toString s)) ∧
      retry_if_exception_type (.runtimeError ("OpenAI TTS " ++ toString s)) =
        false) ∧
    (∀ n, 1 ≤ wait_exponential 1 1 6 n ∧ wait_exponential 1 1 6 n ≤ 6) := by
  refine ⟨?_, ?_, ?_, ?_⟩
  · intro α call h
    have := retryLoop_exhausts call h (MAX_RETRIES - 1) 1
    exact ⟨this.1, this.2⟩
  · intro α call e h1 h2
    simp only [tenacity_retry, MAX_RETRIES, retryLoop, h1, h2]
    simp
  · intro s audio n hs
    constructor
    · simp only [tts_generate_attempt, if_neg hs]
    · rfl
  · intro n
    constructor
    · exact Nat.le_max_left _ _
    · exact Nat.max_le.mpr ⟨by decide, Nat.min_le_right _ _⟩

/-- Witness for claim C9 (amended): a permanently timing-out call runs all 5
attempts; a call whose first attempt raises `RuntimeError` stops after one;
the concrete status-500 attempt maps to a non-retried failure; and the
attempt-3 backoff lies in the clamp window. -/
theorem retry_policy_tenacity_witness :
    (tenacity_retry (fun _ => (.error .timeoutError : Except CallFailure String))).2 =
      MAX_RETRIES ∧
    tenacity_retry (fun _ => (.error (.runtimeError "boom") : Except CallFailure String)) =
      (.error (.runtimeError "boom"), 1) ∧
    tts_generate_attempt (fun _ => 500) (fun _ => "") 1 =
      .error (.runtimeError "OpenAI TTS 500") ∧
    1 ≤ wait_exponential 1 1 6 3 ∧ wait_exponential 1 1 6 3 ≤ 6 := by
  refine ⟨((retry_policy_tenacity).1 String
      (fun _ => .error .timeoutError)
      (fun n => ⟨.timeoutError, rfl, rfl⟩)).1,
    (retry_policy_tenacity).2.1 String
      (fun _ => .error (.runtimeError "boom")) (.runtimeError "boom") rfl rfl,
    ((retry_policy_tenacity).2.2.1 500 (fun _ => "") 1 (by decide)).1,
    ((retry_policy_tenacity).2.2.2 3).1,
    ((retry_policy_tenacity).2.2.2 3).2⟩

end Korli
